import Mathlib

/-!
Verification of the Anthias fleet-manager provisioning engine.

The definitions below are a shallow embedding of the provisioning code in
`players/provision.py`, `players/bulk_provision.py`,
`players/provision_views.py` and `players/provision_serializers.py`.
Python strings become Lean `String`, JSON step entries become the
`StepEntry` structure, the Django `ProvisionTask` row becomes the
`ProvisionTask` structure, and exceptions become `Except` / `Option`
error values. Wall-clock timestamps (`timezone.now()`) are abstracted to
a `Nat` supplied by the caller; no verified property inspects a
timestamp value.
-/

/-- Python `s[:n]` on strings: take the first `n` characters. -/
def strTake (n : Nat) (s : String) : String := ⟨s.data.take n⟩

/-- `listStartsWith pat l` is true when `pat` is an initial segment of `l`. -/
def listStartsWith : List Char → List Char → Bool
  | [], _ => true
  | _ :: _, [] => false
  | p :: ps, c :: cs => p == c && listStartsWith ps cs

/-- `listContainsSub l pat`: `pat` occurs contiguously inside `l`
(models Python `pat in l`). -/
def listContainsSub (l pat : List Char) : Bool :=
  if listStartsWith pat l then true
  else
    match l with
    | [] => false
    | _ :: rest => listContainsSub rest pat

/-- Python `pat in s` for strings. -/
def strContainsSub (s pat : String) : Bool := listContainsSub s.data pat.data

/-- One entry of the `steps` JSONField maintained by `_update_step` in
`players/provision.py`. -/
structure StepEntry where
  step : Nat
  name : String
  status : String
  message : String
  timestamp : Nat
deriving Repr, DecidableEq

/-- The `ProvisionTask` model of `players/provision.py` (the fields the
provisioning engine reads or writes). The UUID primary key and the
player foreign key are modelled as `Nat` identifiers. -/
structure ProvisionTask where
  id : Nat
  ipAddress : String
  sshUser : String
  sshPort : Nat
  playerName : String
  status : String
  currentStep : Nat
  totalSteps : Nat
  steps : List StepEntry
  errorMessage : String
  logOutput : String
  player : Option Nat
deriving Repr, DecidableEq

/-- The replace-or-append loop inside `_update_step`
(`players/provision.py` lines 57-66): the first entry whose `step`
field matches is replaced in place, otherwise the entry is appended. -/
def upsertStep : List StepEntry → StepEntry → List StepEntry
  | [], e => [e]
  | s :: rest, e => if s.step = e.step then e :: rest else s :: upsertStep rest e

/-- `_update_step(task, step_num, name, status, message)` from
`players/provision.py`: upsert the ledger entry and advance the
current-step pointer. `now` models `timezone.now()`. -/
def updateStep (t : ProvisionTask) (now stepNum : Nat)
    (name status message : String) : ProvisionTask :=
  let entry : StepEntry :=
    { step := stepNum, name := name, status := status, message := message, timestamp := now }
  { t with steps := upsertStep t.steps entry, currentStep := stepNum }

/-- `_append_log(task, text)` from `players/provision.py`. -/
def appendLog (t : ProvisionTask) (text : String) : ProvisionTask :=
  { t with logOutput := t.logOutput ++ text ++ "\n" }

/-- The spec's ledger invariant: step indices are pairwise distinct. -/
def ledgerUnique (steps : List StepEntry) : Prop :=
  steps.Pairwise (fun a b => a.step ≠ b.step)

/-- Number of ledger entries carrying step index `i`. -/
def stepCount (steps : List StepEntry) (i : Nat) : Nat :=
  steps.countP (fun s => s.step == i)

lemma mem_upsertStep {l : List StepEntry} {e b : StepEntry}
    (hb : b ∈ upsertStep l e) : b = e ∨ b ∈ l := by
  induction l with
  | nil =>
    rw [upsertStep, List.mem_singleton] at hb
    exact Or.inl hb
  | cons s rest ih =>
    by_cases h : s.step = e.step
    · rw [upsertStep, if_pos h, List.mem_cons] at hb
      rcases hb with hb | hb
      · exact Or.inl hb
      · exact Or.inr (List.mem_cons_of_mem _ hb)
    · rw [upsertStep, if_neg h, List.mem_cons] at hb
      rcases hb with hb | hb
      · exact Or.inr (hb ▸ List.mem_cons_self _ _)
      · rcases ih hb with h1 | h1
        · exact Or.inl h1
        · exact Or.inr (List.mem_cons_of_mem _ h1)

lemma ledgerUnique_upsertStep {l : List StepEntry} (e : StepEntry)
    (h : ledgerUnique l) : ledgerUnique (upsertStep l e) := by
  induction l with
  | nil =>
    rw [upsertStep, ledgerUnique]
    exact List.pairwise_singleton _ _
  | cons s rest ih =>
    rw [ledgerUnique, List.pairwise_cons] at h
    obtain ⟨hs, hrest⟩ := h
    by_cases hstep : s.step = e.step
    · rw [ledgerUnique, upsertStep, if_pos hstep, List.pairwise_cons]
      exact ⟨fun b hb => hstep ▸ hs b hb, hrest⟩
    · rw [ledgerUnique, upsertStep, if_neg hstep, List.pairwise_cons]
      refine ⟨fun b hb => ?_, ih hrest⟩
      rcases mem_upsertStep hb with rfl | hb
      · exact hstep
      · exact hs b hb

lemma ledgerUnique_stepCount_le {l : List StepEntry} (h : ledgerUnique l) (i : Nat) :
    stepCount l i ≤ 1 := by
  induction l with
  | nil => simp [stepCount]
  | cons s rest ih =>
    rw [ledgerUnique, List.pairwise_cons] at h
    obtain ⟨hs, hrest⟩ := h
    rw [stepCount, List.countP_cons]
    by_cases hi : s.step = i
    · have hz : List.countP (fun x => x.step == i) rest = 0 := by
        rw [List.countP_eq_zero]
        intro b hb
        have hne := hs b hb
        simp only [beq_iff_eq]
        intro hbi
        exact hne (by rw [hi, hbi])
      simp [hz, hi]
    · have hle := ih hrest
      rw [stepCount] at hle
      simp only [beq_iff_eq, hi, if_false, decide_eq_true_eq]
      simpa using hle

lemma stepCount_upsertStep_self {l : List StepEntry} (e : StepEntry)
    (h : stepCount l e.step ≤ 1) : stepCount (upsertStep l e) e.step = 1 := by
  induction l with
  | nil => simp [upsertStep, stepCount]
  | cons s rest ih =>
    by_cases hstep : s.step = e.step
    · have h0 : List.countP (fun x => x.step == e.step) rest = 0 := by
        rw [stepCount, List.countP_cons] at h
        simp only [hstep, beq_self_eq_true, if_true] at h
        omega
      rw [upsertStep, if_pos hstep, stepCount, List.countP_cons]
      simp [h0]
    · have h1 : stepCount rest e.step ≤ 1 := by
        rw [stepCount, List.countP_cons] at h
        rw [stepCount]
        omega
      have h2 := ih h1
      rw [stepCount] at h2
      rw [upsertStep, if_neg hstep, stepCount, List.countP_cons]
      simp [h2, hstep]

/-- C3. For every provisioning record whose ledger satisfies the
uniqueness invariant and for every step index `i`, `_update_step`
leaves exactly one ledger entry whose `step` field is `i` (a matching
entry is replaced in place, otherwise the entry is appended once), and
the per-index uniqueness invariant is preserved — so repeated calls
with the same index never accumulate duplicates. -/
theorem update_step_upserts_uniquely (t : ProvisionTask) (now i : Nat)
    (name status msg : String) (h : ledgerUnique t.steps) :
    stepCount (updateStep t now i name status msg).steps i = 1 ∧
      ledgerUnique (updateStep t now i name status msg).steps := by
  constructor
  · exact stepCount_upsertStep_self _ (ledgerUnique_stepCount_le h i)
  · exact ledgerUnique_upsertStep _ h

/-- A pristine task record, as created by `provision_create`. -/
def sampleTask : ProvisionTask :=
  { id := 0, ipAddress := "10.0.0.5", sshUser := "pi", sshPort := 22,
    playerName := "", status := "pending", currentStep := 0, totalSteps := 12,
    steps := [], errorMessage := "", logOutput := "", player := none }

theorem update_step_upserts_uniquely_witness :
    stepCount (updateStep sampleTask 7 2 "prerequisites" "success" "ok").steps 2 = 1 ∧
      ledgerUnique (updateStep sampleTask 7 2 "prerequisites" "success" "ok").steps :=
  update_step_upserts_uniquely sampleTask 7 2 "prerequisites" "success" "ok"
    List.Pairwise.nil

/-- Outcome of waiting for the remote exit status in `_ssh_run`
(`players/provision.py` lines 91-100): either `recv_exit_status`
returns a code within the channel timeout, or `socket.timeout` fires. -/
inductive CmdOutcome where
  | timeout
  | exited (code : Nat)
deriving Repr, DecidableEq

/-- Result of `_ssh_run`: whether the paramiko channel was explicitly
closed, and either the `(stdout, stderr, exit_code)` triple or the
message of the raised `RuntimeError`. -/
structure SshRunResult where
  channelClosed : Bool
  result : Except String (String × String × Nat)
deriving Repr

/-- Python `err or out` (line 106 of `players/provision.py`). -/
def errOrOut (err out : String) : String := if err = "" then out else err

/-- Message of the timeout error raised by `_ssh_run`. -/
def sshTimedOutMsg (tmo : Nat) (cmd : String) : String :=
  "SSH command timed out after " ++ toString tmo ++ "s: " ++ strTake 100 cmd

/-- Message of the nonzero-exit error raised by `_ssh_run`. -/
def cmdFailedMsg (code : Nat) (detail : String) : String :=
  "Command failed (exit " ++ toString code ++ "): " ++ detail

/-- `_ssh_run(ssh, cmd, ..., timeout, check)` from `players/provision.py`
lines 79-108. `outcome` is what `recv_exit_status` does on this call.
On `socket.timeout` the channel is force-closed and a `RuntimeError`
is raised; on a nonzero exit status with `check` enabled a
`RuntimeError` carrying the code and stderr (or stdout when stderr is
empty) is raised; otherwise the triple is returned. -/
def sshRun (outcome : CmdOutcome) (out err : String) (check : Bool)
    (tmo : Nat) (cmd : String) : SshRunResult :=
  match outcome with
  | .timeout =>
    { channelClosed := true, result := .error (sshTimedOutMsg tmo cmd) }
  | .exited code =>
    if check ∧ code ≠ 0 then
      { channelClosed := false, result := .error (cmdFailedMsg code (errOrOut err out)) }
    else
      { channelClosed := false, result := .ok (out, err, code) }

/-- C8. For every command run through `_ssh_run`: a missing exit status
within the timeout force-closes the underlying channel and raises the
timeout error; a nonzero exit status with `check` enabled raises the
command-failed error carrying the exit code and stderr (stdout when
stderr is empty); with `check` disabled the nonzero code is returned in
the result triple without raising. -/
theorem ssh_run_error_contract (out err : String) (check : Bool)
    (tmo : Nat) (cmd : String) (code : Nat) :
    (sshRun CmdOutcome.timeout out err check tmo cmd =
      { channelClosed := true, result := .error (sshTimedOutMsg tmo cmd) }) ∧
    (check = true → code ≠ 0 →
      sshRun (CmdOutcome.exited code) out err check tmo cmd =
        { channelClosed := false, result := .error (cmdFailedMsg code (errOrOut err out)) }) ∧
    (err ≠ "" → errOrOut err out = err) ∧
    (check = false →
      sshRun (CmdOutcome.exited code) out err check tmo cmd =
        { channelClosed := false, result := .ok (out, err, code) }) := by
  refine ⟨rfl, fun hc hz => ?_, fun he => ?_, fun hc => ?_⟩
  · rw [sshRun, if_pos ⟨hc, hz⟩]
  · rw [errOrOut, if_neg he]
  · subst hc
    rw [sshRun, if_neg (by simp)]

theorem ssh_run_error_contract_witness :
    (sshRun CmdOutcome.timeout "o" "e" true 30 "uname -m" =
      { channelClosed := true, result := .error (sshTimedOutMsg 30 "uname -m") }) ∧
    (sshRun (CmdOutcome.exited 2) "o" "e" true 30 "uname -m" =
      { channelClosed := false, result := .error (cmdFailedMsg 2 (errOrOut "e" "o")) }) ∧
    (errOrOut "e" "o" = "e") ∧
    (sshRun (CmdOutcome.exited 2) "o" "e" false 30 "uname -m" =
      { channelClosed := false, result := .ok ("o", "e", 2) }) := by
  obtain ⟨h1, h2, h3, h4⟩ := ssh_run_error_contract "o" "e" true 30 "uname -m" 2
  obtain ⟨_, _, _, h4f⟩ := ssh_run_error_contract "o" "e" false 30 "uname -m" 2
  exact ⟨h1, h2 rfl (by decide), h3 (by decide), h4f rfl⟩

/-- Kind of retryable connect exception, mirroring the tuple caught at
line 208 of `players/provision.py`:
`(socket.timeout, TimeoutError, OSError, paramiko.SSHException)`.
`ConnectionRefusedError` is an `OSError` subclass and gets its own
kind because the final classification (lines 226-240) distinguishes it. -/
inductive ConnErrKind where
  | sockTimeout
  | timeoutErr
  | connRefused
  | osError
  | sshExc
deriving Repr, DecidableEq

/-- What one `ssh.connect` attempt does, mirroring the `try/except`
arms at lines 190-223 of `players/provision.py`. -/
inductive ConnectOutcome where
  | ok
  | authFail (msg : String)
  | connErr (kind : ConnErrKind) (msg : String)
  | otherErr (msg : String)
deriving Repr, DecidableEq

/-- `max_ssh_attempts = 5` (line 186). -/
def maxSshAttempts : Nat := 5

/-- `ssh_delays = [5, 10, 15, 20, 25]` (line 187). -/
def sshDelays : List Nat := [5, 10, 15, 20, 25]

/-- Message raised on `paramiko.AuthenticationException` (lines 202-207). -/
def authFailMsg (user : String) : String :=
  "SSH authentication failed for user \"" ++ user ++ "\". Check username and password."

/-- Message raised on any non-paramiko exception during connect (line 223). -/
def sshOtherMsg (m : String) : String := "SSH connection failed: " ++ m

/-- Final classification of the last retryable error (lines 225-240). -/
def classifyConnErr (port : Nat) : ConnErrKind → String → String
  | .sockTimeout, _ =>
    "SSH connection timed out after " ++ toString maxSshAttempts ++
      " attempts. The device may still be booting or SSH service is not running."
  | .timeoutErr, _ =>
    "SSH connection timed out after " ++ toString maxSshAttempts ++
      " attempts. The device may still be booting or SSH service is not running."
  | .connRefused, _ =>
    "SSH connection refused on port " ++ toString port ++
      ". SSH server may not be enabled on the device."
  | .osError, m =>
    "SSH connection failed after " ++ toString maxSshAttempts ++ " attempts: " ++ m
  | .sshExc, m =>
    "SSH connection failed after " ++ toString maxSshAttempts ++ " attempts: " ++ m

/-- Log line written before a retry (lines 212-216). -/
def retryLogMsg (attempt delay : Nat) (m : String) : String :=
  "SSH attempt " ++ toString attempt ++ "/" ++ toString maxSshAttempts ++
    " failed: " ++ m ++ ". Retrying in " ++ toString delay ++ "s..."

/-- Step message written before a retry (lines 217-220). -/
def retryStepMsg (attempt : Nat) : String :=
  "SSH retry " ++ toString attempt ++ "/" ++ toString maxSshAttempts ++ "..."

/-- Result of the connect-with-retry loop: the task after its ledger
and log writes, the number of `ssh.connect` calls observed, the
back-off delays actually slept, and the message of the raised
`RuntimeError`, if any. -/
structure ConnectResult where
  task : ProvisionTask
  attempts : Nat
  sleeps : List Nat
  error : Option String
deriving Repr, DecidableEq

/-- The `for attempt in range(1, max_ssh_attempts + 1)` loop of
`players/provision.py` lines 189-240, including the post-loop
classification of `last_error`. The first list argument is the list of
attempt numbers still to run; `attemptsMade`/`lastError` carry the loop
state (`attempt`, `last_error`). On a retryable error before the final
attempt the loop logs, updates the ledger entry of step 1 and sleeps
`ssh_delays[attempt - 1]`; on the final attempt it falls out of the
loop and the error is classified and raised. -/
def connectLoopGo (oc : Nat → ConnectOutcome) (now : Nat) :
    List Nat → ProvisionTask → List Nat → Nat → Option (ConnErrKind × String) →
      ConnectResult
  | [], t, sleeps, attemptsMade, lastError =>
    match lastError with
    | none => { task := t, attempts := attemptsMade, sleeps := sleeps, error := none }
    | some (k, m) =>
      { task := t, attempts := attemptsMade, sleeps := sleeps,
        error := some (classifyConnErr t.sshPort k m) }
  | attempt :: rest, t, sleeps, _, _ =>
    match oc attempt with
    | .ok => { task := t, attempts := attempt, sleeps := sleeps, error := none }
    | .authFail _ =>
      { task := t, attempts := attempt, sleeps := sleeps,
        error := some (authFailMsg t.sshUser) }
    | .connErr k m =>
      if attempt < maxSshAttempts then
        let delay := sshDelays.getD (attempt - 1) 0
        let t1 := appendLog t (retryLogMsg attempt delay m)
        let t2 := updateStep t1 now 1 "ssh_connect" "running" (retryStepMsg attempt)
        connectLoopGo oc now rest t2 (sleeps ++ [delay]) attempt (some (k, m))
      else
        connectLoopGo oc now rest t sleeps attempt (some (k, m))
    | .otherErr m =>
      { task := t, attempts := attempt, sleeps := sleeps,
        error := some (sshOtherMsg m) }

/-- The whole connect-with-retry loop, entered at attempt 1. -/
def connectAttempts (oc : Nat → ConnectOutcome) (now : Nat)
    (t : ProvisionTask) : ConnectResult :=
  connectLoopGo oc now [1, 2, 3, 4, 5] t [] 0 none

lemma connectLoopGo_attempts_ge (oc : Nat → ConnectOutcome) (now : Nat)
    (n : Nat) :
    ∀ l t sleeps a e, (∀ x ∈ l, n ≤ x) → (l = [] → n ≤ a) →
      n ≤ (connectLoopGo oc now l t sleeps a e).attempts := by
  intro l
  induction l with
  | nil =>
    intro t sleeps a e _ hnil
    rcases e with _ | ⟨k, m⟩ <;> simpa [connectLoopGo] using hnil rfl
  | cons x rest ih =>
    intro t sleeps a e hl _
    have hx : n ≤ x := hl x (List.mem_cons_self _ _)
    have hrest : ∀ y ∈ rest, n ≤ y := fun y hy => hl y (List.mem_cons_of_mem _ hy)
    cases hoc : oc x with
    | ok => simpa [connectLoopGo, hoc] using hx
    | authFail m => simpa [connectLoopGo, hoc] using hx
    | otherErr m => simpa [connectLoopGo, hoc] using hx
    | connErr k m =>
      by_cases hlt : x < maxSshAttempts
      · rw [connectLoopGo.eq_def]
        simp only [hoc, if_pos hlt]
        exact ih _ _ _ _ hrest (fun _ => hx)
      · rw [connectLoopGo.eq_def]
        simp only [hoc, if_neg hlt]
        exact ih _ _ _ _ hrest (fun _ => hx)

/-- C4. For every oracle of per-attempt connect outcomes: an
authentication failure on the first attempt aborts the loop at once —
exactly one `ssh.connect` call is observed, no back-off sleep happens
and the fatal authentication message is raised; any other
(non-retryable) exception on the first attempt is likewise fatal after
one attempt; a retryable connection/timeout error on the first attempt
leads to at least a second attempt being made. -/
theorem connect_auth_failure_is_fatal_immediately (oc : Nat → ConnectOutcome)
    (now : Nat) (t : ProvisionTask) (m : String) (k : ConnErrKind) :
    (oc 1 = ConnectOutcome.authFail m →
      connectAttempts oc now t =
        { task := t, attempts := 1, sleeps := [], error := some (authFailMsg t.sshUser) }) ∧
    (oc 1 = ConnectOutcome.otherErr m →
      connectAttempts oc now t =
        { task := t, attempts := 1, sleeps := [], error := some (sshOtherMsg m) }) ∧
    (oc 1 = ConnectOutcome.connErr k m →
      2 ≤ (connectAttempts oc now t).attempts) := by
  refine ⟨fun h => ?_, fun h => ?_, fun h => ?_⟩
  · rw [connectAttempts, connectLoopGo.eq_def]
    simp [h]
  · rw [connectAttempts, connectLoopGo.eq_def]
    simp [h]
  · rw [connectAttempts, connectLoopGo.eq_def]
    simp only [h, if_pos (by decide : 1 < maxSshAttempts)]
    exact connectLoopGo_attempts_ge oc now 2 _ _ _ _ _ (by decide) (by decide)

theorem connect_auth_failure_is_fatal_immediately_witness :
    (connectAttempts (fun _ => ConnectOutcome.authFail "denied") 0 sampleTask =
      { task := sampleTask, attempts := 1, sleeps := [],
        error := some (authFailMsg "pi") }) ∧
    (connectAttempts (fun _ => ConnectOutcome.otherErr "boom") 0 sampleTask =
      { task := sampleTask, attempts := 1, sleeps := [],
        error := some (sshOtherMsg "boom") }) ∧
    2 ≤ (connectAttempts
          (fun _ => ConnectOutcome.connErr ConnErrKind.connRefused "refused")
          0 sampleTask).attempts := by
  refine ⟨?_, ?_, ?_⟩
  · exact (connect_auth_failure_is_fatal_immediately
      (fun _ => ConnectOutcome.authFail "denied") 0 sampleTask "denied"
      ConnErrKind.connRefused).1 rfl
  · exact (connect_auth_failure_is_fatal_immediately
      (fun _ => ConnectOutcome.otherErr "boom") 0 sampleTask "boom"
      ConnErrKind.connRefused).2.1 rfl
  · exact (connect_auth_failure_is_fatal_immediately
      (fun _ => ConnectOutcome.connErr ConnErrKind.connRefused "refused") 0
      sampleTask "refused" ConnErrKind.connRefused).2.2 rfl

/-- The `except Exception` handler of `provision_player`
(`players/provision.py` lines 758-773): mark the record `failed`, store
the message truncated to the 1000-char field, append an ERROR log line,
and, when the last ledger entry is still `running`, rewrite it to
`failed` with the message truncated to 200 chars. -/
def handleFatal (t : ProvisionTask) (now : Nat) (e : String) : ProvisionTask :=
  let t2 := appendLog
    { t with status := "failed", errorMessage := strTake 1000 e } ("ERROR: " ++ e)
  -- The scrutinee is `task.steps[-1]`; the preceding writes touch no
  -- step entry, so `t2.steps = t.steps` definitionally.
  match t.steps.getLast? with
  | none => t2
  | some last =>
    if last.status = "running" then
      updateStep t2 now last.step last.name "failed" (strTake 200 e)
    else t2

lemma handleFatal_status (t : ProvisionTask) (now : Nat) (e : String) :
    (handleFatal t now e).status = "failed" := by
  rw [handleFatal]
  split
  · rfl
  · split <;> rfl

/-- Connect oracle where every attempt raises `ConnectionRefusedError`. -/
def ocRefused : Nat → ConnectOutcome :=
  fun _ => ConnectOutcome.connErr ConnErrKind.connRefused "Connection refused"

/-- C5, counterexample. When every `ssh.connect` attempt is refused,
the loop makes exactly 5 attempts but sleeps only the four delays
5, 10, 15 and 20 seconds: the claimed sleep sequence 5, 10, 15, 20, 25
is wrong, because the fifth (final) failed attempt escalates without
sleeping, so `ssh_delays[4] = 25` is never used. -/
theorem connect_backoff_counterexample :
    (connectAttempts ocRefused 0 sampleTask).attempts = 5 ∧
    (connectAttempts ocRefused 0 sampleTask).sleeps = [5, 10, 15, 20] ∧
    (connectAttempts ocRefused 0 sampleTask).sleeps ≠ [5, 10, 15, 20, 25] := by
  refine ⟨rfl, rfl, by decide⟩

/-- C5, amended. If every `ssh.connect` attempt fails with a
connection-refused or timeout error, the connect step makes exactly 5
attempts, sleeping the increasing backoff delays 5, 10, 15 and 20
seconds between consecutive attempts (the configured fifth delay of
25 s is never slept because the final failed attempt escalates
immediately), and then raises a classified fatal error which the
orchestrator's handler turns into record status `failed`. -/
theorem connect_all_attempts_fail_backoff (oc : Nat → ConnectOutcome)
    (now : Nat) (t : ProvisionTask) (k : ConnErrKind) (m : String)
    (hk : k = ConnErrKind.connRefused ∨ k = ConnErrKind.sockTimeout ∨
      k = ConnErrKind.timeoutErr)
    (hoc : ∀ a, oc a = ConnectOutcome.connErr k m) :
    (connectAttempts oc now t).attempts = 5 ∧
    (connectAttempts oc now t).sleeps = [5, 10, 15, 20] ∧
    ∃ e, (connectAttempts oc now t).error = some e ∧
      (handleFatal (connectAttempts oc now t).task now e).status = "failed" := by
  have h1 := hoc 1
  have h2 := hoc 2
  have h3 := hoc 3
  have h4 := hoc 4
  have h5 := hoc 5
  have hres : connectAttempts oc now t =
      connectLoopGo oc now [] (updateStep (appendLog (updateStep (appendLog
        (updateStep (appendLog (updateStep (appendLog t
          (retryLogMsg 1 5 m)) now 1 "ssh_connect" "running" (retryStepMsg 1))
          (retryLogMsg 2 10 m)) now 1 "ssh_connect" "running" (retryStepMsg 2))
          (retryLogMsg 3 15 m)) now 1 "ssh_connect" "running" (retryStepMsg 3))
          (retryLogMsg 4 20 m)) now 1 "ssh_connect" "running" (retryStepMsg 4))
        [5, 10, 15, 20] 5 (some (k, m)) := by
    rw [connectAttempts]
    rw [connectLoopGo.eq_def]
    simp only [h1, if_pos (by decide : 1 < maxSshAttempts)]
    rw [connectLoopGo.eq_def]
    simp only [h2, if_pos (by decide : 2 < maxSshAttempts)]
    rw [connectLoopGo.eq_def]
    simp only [h3, if_pos (by decide : 3 < maxSshAttempts)]
    rw [connectLoopGo.eq_def]
    simp only [h4, if_pos (by decide : 4 < maxSshAttempts)]
    rw [connectLoopGo.eq_def]
    simp only [h5, if_neg (by decide : ¬ (5 < maxSshAttempts))]
    simp [sshDelays]
  rw [hres, connectLoopGo]
  refine ⟨rfl, rfl, ?_⟩
  exact ⟨_, rfl, handleFatal_status _ _ _⟩

theorem connect_all_attempts_fail_backoff_witness :
    (connectAttempts ocRefused 0 sampleTask).attempts = 5 ∧
    (connectAttempts ocRefused 0 sampleTask).sleeps = [5, 10, 15, 20] ∧
    ∃ e, (connectAttempts ocRefused 0 sampleTask).error = some e ∧
      (handleFatal (connectAttempts ocRefused 0 sampleTask).task 0 e).status = "failed" :=
  connect_all_attempts_fail_backoff ocRefused 0 sampleTask
    ConnErrKind.connRefused "Connection refused" (Or.inl rfl) (fun _ => rfl)

lemma upsertStep_concat_last (l : List StepEntry) (x e : StepEntry)
    (he : e.step = x.step) (hx : ∀ s ∈ l, s.step ≠ x.step) :
    upsertStep (l ++ [x]) e = l ++ [e] := by
  induction l with
  | nil =>
    rw [List.nil_append, List.nil_append, upsertStep, if_pos (he ▸ rfl)]
  | cons s rest ih =>
    have hs : s.step ≠ x.step := hx s (List.mem_cons_self _ _)
    rw [List.cons_append, upsertStep, if_neg (fun hc => hs (he ▸ hc)),
      ih (fun a ha => hx a (List.mem_cons_of_mem _ ha)), List.cons_append]

lemma handleFatal_steps_of_nil (t : ProvisionTask) (now : Nat) (e : String)
    (h : t.steps = []) : (handleFatal t now e).steps = [] := by
  rw [handleFatal]
  simp only [h, List.getLast?_nil]
  rfl

lemma handleFatal_steps_of_not_running (t : ProvisionTask) (now : Nat) (e : String)
    (x : StepEntry) (hlast : t.steps.getLast? = some x)
    (hx : x.status ≠ "running") : (handleFatal t now e).steps = t.steps := by
  rw [handleFatal]
  simp only [hlast]
  rw [if_neg hx]
  rfl

lemma handleFatal_steps_of_running (t : ProvisionTask) (now : Nat) (e : String)
    (L : List StepEntry) (x : StepEntry) (hconcat : t.steps = L ++ [x])
    (hx : x.status = "running") (h : ledgerUnique t.steps) :
    (handleFatal t now e).steps =
      L ++ [{ step := x.step, name := x.name, status := "failed",
              message := strTake 200 e, timestamp := now }] := by
  have hlast : t.steps.getLast? = some x := by
    rw [hconcat]
    exact List.getLast?_concat _
  rw [handleFatal]
  simp only [hlast]
  rw [if_pos hx]
  show upsertStep t.steps _ = _
  rw [hconcat]
  apply upsertStep_concat_last
  · rfl
  · rw [hconcat, ledgerUnique, List.pairwise_append] at h
    exact fun s hs => h.2.2 s hs x (List.mem_singleton.mpr rfl)

/-- C7. Whenever the orchestrator's exception handler fires with error
text `e`, the record is marked `failed` with the message truncated to
the 1000-char `error_message` field; under the ledger-uniqueness
invariant, when the last ledger entry is still `running` it is
rewritten in place to `failed` with the error text truncated to 200
chars, so the persisted step ledger never ends with an entry whose
status is `running`. -/
theorem fatal_handler_ledger_never_ends_running (t : ProvisionTask) (now : Nat)
    (e : String) (h : ledgerUnique t.steps) :
    (handleFatal t now e).status = "failed" ∧
    (handleFatal t now e).errorMessage = strTake 1000 e ∧
    (∀ last, (handleFatal t now e).steps.getLast? = some last →
      last.status ≠ "running") ∧
    (∀ last, t.steps.getLast? = some last → last.status = "running" →
      (handleFatal t now e).steps = t.steps.dropLast ++
        [{ step := last.step, name := last.name, status := "failed",
           message := strTake 200 e, timestamp := now }]) := by
  refine ⟨handleFatal_status t now e, ?_, ?_, ?_⟩
  · rw [handleFatal]
    split
    · rfl
    · split <;> rfl
  · intro last hlast
    rcases List.eq_nil_or_concat t.steps with hnil | ⟨L, x, hconcat⟩
    · rw [handleFatal_steps_of_nil t now e hnil, List.getLast?_nil] at hlast
      exact absurd hlast (by simp)
    · rw [List.concat_eq_append] at hconcat
      by_cases hx : x.status = "running"
      · rw [handleFatal_steps_of_running t now e L x hconcat hx h,
          List.getLast?_concat] at hlast
        have hinj := Option.some.inj hlast
        rw [← hinj]
        show ("failed" : String) ≠ "running"
        decide
      · rw [handleFatal_steps_of_not_running t now e x
            (by rw [hconcat]; exact List.getLast?_concat _) hx,
          hconcat, List.getLast?_concat] at hlast
        have hinj := Option.some.inj hlast
        rw [← hinj]
        exact hx
  · intro last hlast hrun
    rcases List.eq_nil_or_concat t.steps with hnil | ⟨L, x, hconcat⟩
    · rw [hnil, List.getLast?_nil] at hlast
      exact absurd hlast (by simp)
    · rw [List.concat_eq_append] at hconcat
      have hxl : x = last := by
        rw [hconcat, List.getLast?_concat] at hlast
        exact Option.some.inj hlast
      subst hxl
      rw [handleFatal_steps_of_running t now e L x hconcat hrun h, hconcat,
        List.dropLast_concat]

/-- A task whose ledger ends in a dangling `running` step-1 entry. -/
def runningTask : ProvisionTask :=
  { sampleTask with
    status := "running",
    steps := [{ step := 1, name := "ssh_connect", status := "running",
                message := "Connecting via SSH...", timestamp := 3 }],
    currentStep := 1 }

theorem fatal_handler_ledger_never_ends_running_witness :
    (handleFatal runningTask 9 "No internet connection. Check network settings.").status
        = "failed" ∧
    (handleFatal runningTask 9 "No internet connection. Check network settings.").errorMessage
        = strTake 1000 "No internet connection. Check network settings." ∧
    (∀ last,
      (handleFatal runningTask 9
          "No internet connection. Check network settings.").steps.getLast? = some last →
      last.status ≠ "running") ∧
    (∀ last, runningTask.steps.getLast? = some last → last.status = "running" →
      (handleFatal runningTask 9
          "No internet connection. Check network settings.").steps =
        runningTask.steps.dropLast ++
          [{ step := last.step, name := last.name, status := "failed",
             message := strTake 200 "No internet connection. Check network settings.",
             timestamp := 9 }]) :=
  fatal_handler_ledger_never_ends_running runningTask 9
    "No internet connection. Check network settings."
    (by unfold ledgerUnique; decide)

lemma listStartsWith_append (p r : List Char) : listStartsWith p (p ++ r) = true := by
  induction p with
  | nil => rw [listStartsWith]
  | cons c cs ih =>
    rw [List.cons_append, listStartsWith, ih, beq_self_eq_true]
    rfl

lemma listContainsSub_of_startsWith {l pat : List Char}
    (h : listStartsWith pat l = true) : listContainsSub l pat = true := by
  rw [listContainsSub.eq_def, if_pos h]

lemma strContainsSub_take (p s : String) (q : List Char) (n : Nat)
    (hdata : s.data = p.data ++ q) (hn : p.data.length ≤ n) :
    strContainsSub (strTake n s) p = true := by
  rw [strContainsSub, strTake]
  show listContainsSub (s.data.take n) p.data = true
  rw [hdata, List.take_append_eq_append_take, List.take_of_length_le hn]
  exact listContainsSub_of_startsWith (listStartsWith_append _ _)

/-- Message raised when `uname -m` reports an unsupported value
(`players/provision.py` line 246). -/
def unsupportedArchMsg (arch : String) : String :=
  "Unsupported architecture: " ++ arch ++ ". Expected aarch64 or armv7l."

lemma unsupportedArchMsg_data (a : String) :
    (unsupportedArchMsg a).data = "Unsupported architecture".data ++
      (": ".data ++ (a.data ++ ". Expected aarch64 or armv7l.".data)) := by
  have hsplit : ("Unsupported architecture: " : String) =
      "Unsupported architecture" ++ ": " := rfl
  rw [unsupportedArchMsg, String.data_append, String.data_append, hsplit,
    String.data_append, List.append_assoc, List.append_assoc]

lemma unsupportedArchMsg_contains (n : Nat) (hn : 24 ≤ n) (a : String) :
    strContainsSub (strTake n (unsupportedArchMsg a)) "Unsupported architecture" = true := by
  refine strContainsSub_take _ _ _ n (unsupportedArchMsg_data a) ?_
  have hlen : ("Unsupported architecture" : String).data.length = 24 := by decide
  omega

/-- `('aarch64', 'armv7l')` from line 245 of `players/provision.py`. -/
def supportedArchs : List String := ["aarch64", "armv7l"]

/-- Python `s.strip()`: drop leading and trailing whitespace. -/
def pyStrip (s : String) : String :=
  ⟨((s.data.dropWhile Char.isWhitespace).reverse.dropWhile Char.isWhitespace).reverse⟩

/-- Python `rstrip('\x00')` on an already-stripped char list. -/
def dropTrailingNul (l : List Char) : List Char :=
  (l.reverse.dropWhile (fun c => c == '\x00')).reverse

/-- `model_out.strip().rstrip('\x00')` (line 250). -/
def cleanModel (s : String) : String := ⟨dropTrailingNul (pyStrip s).data⟩

/-- Pi-model detection from `/proc/device-tree/model` (lines 251-256). -/
def detectDeviceType (modelStr : String) : String :=
  if strContainsSub modelStr "Raspberry Pi 5" || strContainsSub modelStr "Compute Module 5" then
    "pi5"
  else if strContainsSub modelStr "Raspberry Pi 4" || strContainsSub modelStr "Compute Module 4" then
    "pi4"
  else
    "pi4"

/-- Message raised when the SSH port never opens (lines 177-180). -/
def unreachableMsg (ip : String) (port : Nat) : String :=
  "Host " ++ ip ++ ":" ++ toString port ++
    " is unreachable. Check that the device is powered on, connected to the network, and SSH is enabled."

/-- Remote-side behaviour that step 1 of `provision_player` observes:
whether the TCP pre-check finds the SSH port open, what each of the
twelve 5-second port polls sees, what each `ssh.connect` attempt does,
and the stdout of the `uname -m` and device-model probes. -/
structure Step1Env where
  portOpenInit : Bool
  portOpenPoll : Nat → Bool
  connect : Nat → ConnectOutcome
  unameOut : String
  modelOut : String

/-- Step 1 (`ssh_connect`) of `provision_player`
(`players/provision.py` lines 152-258): the TCP port pre-check with the
60-second wait loop, the connect-with-retry loop, the architecture
probe with the supported-architecture gate, and the device-model
detection. Returns the task after its ledger/log writes together with
either the raised error message or `(arch, device_type)`. -/
def step1 (env : Step1Env) (now : Nat) (t0 : ProvisionTask) :
    ProvisionTask × Except String (String × String) :=
  let ip := t0.ipAddress
  let port := t0.sshPort
  let ta := updateStep t0 now 1 "ssh_connect" "running" "Connecting via SSH..."
  let tb := appendLog ta ("[Step 1] Connecting to " ++ ip ++ ":" ++ toString port ++ "...")
  let portPhase : ProvisionTask × Bool :=
    if env.portOpenInit then (tb, true)
    else
      let tc := appendLog tb ("Port " ++ toString port ++ " on " ++ ip ++
        " is not open. Waiting for host to come online...")
      let td := updateStep tc now 1 "ssh_connect" "running" "Waiting for host to come online..."
      match (List.range 12).find? (fun i => env.portOpenPoll i) with
      | some i => (appendLog td ("SSH port is open after ~" ++ toString ((i + 1) * 5) ++ "s"), true)
      | none => (td, false)
  if portPhase.2 = false then
    (portPhase.1, .error (unreachableMsg ip port))
  else
    let r := connectAttempts env.connect now portPhase.1
    match r.error with
    | some e => (r.task, .error e)
    | none =>
      let arch := pyStrip env.unameOut
      let t2 := appendLog r.task ("Connected. Architecture: " ++ arch)
      if supportedArchs.contains arch then
        let modelStr := cleanModel env.modelOut
        let deviceType := detectDeviceType modelStr
        let t3 := appendLog t2 ("Device type: " ++ deviceType ++ " (" ++ modelStr ++ ")")
        let t4 := updateStep t3 now 1 "ssh_connect" "success"
          ("Connected (" ++ arch ++ ", " ++ deviceType ++ ")")
        (t4, .ok (arch, deviceType))
      else
        (t2, .error (unsupportedArchMsg arch))

/-- `provision_player` from the initial `status = 'running'` write
through step 1 and, on a raised error, the exception handler. On step-1
success it returns the record state at entry to step 2. -/
def provisionThroughStep1 (env : Step1Env) (now : Nat) (t0 : ProvisionTask) :
    ProvisionTask :=
  let t := { t0 with status := "running" }
  match step1 env now t with
  | (t1, .error e) => handleFatal t1 now e
  | (t1, .ok _) => t1

lemma handleFatal_player (t : ProvisionTask) (now : Nat) (e : String) :
    (handleFatal t now e).player = t.player := by
  rw [handleFatal]
  split
  · rfl
  · split <;> rfl

lemma handleFatal_errorMessage (t : ProvisionTask) (now : Nat) (e : String) :
    (handleFatal t now e).errorMessage = strTake 1000 e := by
  rw [handleFatal]
  split
  · rfl
  · split <;> rfl

/-- C9. For every environment in which the port pre-check passes, the
first `ssh.connect` attempt succeeds and the architecture probe
reports a value outside the supported set, and for every pristine
record (empty ledger, no device reference): the run ends with record
status `failed`, an error message that contains
"Unsupported architecture", no device reference on the record, and a
ledger whose single entry is step 1 with status `failed` and a message
containing "Unsupported architecture". -/
theorem unsupported_architecture_is_fatal (env : Step1Env) (now : Nat)
    (t0 : ProvisionTask)
    (hport : env.portOpenInit = true)
    (hconn : env.connect 1 = ConnectOutcome.ok)
    (harch : supportedArchs.contains (pyStrip env.unameOut) = false)
    (hsteps : t0.steps = []) (hplayer : t0.player = none) :
    (provisionThroughStep1 env now t0).status = "failed" ∧
    (provisionThroughStep1 env now t0).player = none ∧
    (provisionThroughStep1 env now t0).errorMessage =
      strTake 1000 (unsupportedArchMsg (pyStrip env.unameOut)) ∧
    strContainsSub (provisionThroughStep1 env now t0).errorMessage
      "Unsupported architecture" = true ∧
    (provisionThroughStep1 env now t0).steps =
      [{ step := 1, name := "ssh_connect", status := "failed",
         message := strTake 200 (unsupportedArchMsg (pyStrip env.unameOut)),
         timestamp := now }] ∧
    strContainsSub (strTake 200 (unsupportedArchMsg (pyStrip env.unameOut)))
      "Unsupported architecture" = true := by
  set T := appendLog
    (appendLog
      (updateStep { t0 with status := "running" } now 1 "ssh_connect" "running"
        "Connecting via SSH...")
      ("[Step 1] Connecting to " ++ t0.ipAddress ++ ":" ++ toString t0.sshPort ++ "..."))
    ("Connected. Architecture: " ++ pyStrip env.unameOut) with hTdef
  have hstep1 : provisionThroughStep1 env now t0 =
      handleFatal T now (unsupportedArchMsg (pyStrip env.unameOut)) := by
    rw [provisionThroughStep1, step1]
    rw [connectAttempts, connectLoopGo.eq_def]
    simp only [hport, hconn, harch, hTdef]
    simp
  have hTsteps : T.steps =
      [{ step := 1, name := "ssh_connect", status := "running",
         message := "Connecting via SSH...", timestamp := now }] := by
    show upsertStep t0.steps _ = _
    rw [hsteps]
    rfl
  have hTuniq : ledgerUnique T.steps := by
    rw [hTsteps, ledgerUnique]
    exact List.pairwise_singleton _ _
  have hTplayer : T.player = none := hplayer
  refine ⟨?_, ?_, ?_, ?_, ?_, ?_⟩
  · rw [hstep1]
    exact handleFatal_status _ _ _
  · rw [hstep1, handleFatal_player]
    exact hTplayer
  · rw [hstep1]
    exact handleFatal_errorMessage _ _ _
  · rw [hstep1, handleFatal_errorMessage]
    exact unsupportedArchMsg_contains 1000 (by omega) _
  · rw [hstep1,
      handleFatal_steps_of_running T now _ []
        { step := 1, name := "ssh_connect", status := "running",
          message := "Connecting via SSH...", timestamp := now }
        (by rw [hTsteps, List.nil_append]) rfl hTuniq,
      List.nil_append]
  · exact unsupportedArchMsg_contains 200 (by omega) _

/-- Environment of the spec scenario: target `10.0.0.6` whose
architecture probe returns `armv6l`. -/
def archEnv : Step1Env :=
  { portOpenInit := true, portOpenPoll := fun _ => true,
    connect := fun _ => ConnectOutcome.ok,
    unameOut := "armv6l", modelOut := "Raspberry Pi 3 Model B Rev 1.2" }

def armTask : ProvisionTask := { sampleTask with ipAddress := "10.0.0.6" }

theorem unsupported_architecture_is_fatal_witness :
    (provisionThroughStep1 archEnv 4 armTask).status = "failed" ∧
    (provisionThroughStep1 archEnv 4 armTask).player = none ∧
    (provisionThroughStep1 archEnv 4 armTask).errorMessage =
      strTake 1000 (unsupportedArchMsg (pyStrip archEnv.unameOut)) ∧
    strContainsSub (provisionThroughStep1 archEnv 4 armTask).errorMessage
      "Unsupported architecture" = true ∧
    (provisionThroughStep1 archEnv 4 armTask).steps =
      [{ step := 1, name := "ssh_connect", status := "failed",
         message := strTake 200 (unsupportedArchMsg (pyStrip archEnv.unameOut)),
         timestamp := 4 }] ∧
    strContainsSub (strTake 200 (unsupportedArchMsg (pyStrip archEnv.unameOut)))
      "Unsupported architecture" = true :=
  unsupported_architecture_is_fatal archEnv 4 armTask rfl rfl (by decide) rfl rfl

/-- `provision_retry` from `players/provision_views.py` lines 61-93:
only records whose status is `failed` may be retried (anything else is
answered with a 400 error and left untouched); a failed record is reset
— status back to `pending`, current-step pointer to 0, step ledger,
error message and log cleared, device reference dropped — and then the
provisioning job is re-queued for it. -/
def provisionRetry (t : ProvisionTask) : Except String ProvisionTask :=
  if (["failed"].contains t.status) = false then
    .error "Only failed tasks can be retried."
  else
    .ok { t with
          status := "pending", currentStep := 0, steps := [],
          errorMessage := "", logOutput := "", player := none }

/-- C6. Retrying a provisioning record whose status is `failed` resets
it before re-queueing: the step ledger, error message, log text and
device reference are cleared, the current-step pointer returns to 0 and
the status returns to `pending`; a record in any other status — in
particular a terminal `success` one — is rejected unchanged, so this
explicit reset is the only way the retry endpoint moves a record out of
a terminal state. -/
theorem retry_resets_failed_record (t : ProvisionTask) :
    (t.status = "failed" →
      provisionRetry t = .ok { t with
        status := "pending", currentStep := 0, steps := [],
        errorMessage := "", logOutput := "", player := none }) ∧
    (t.status ≠ "failed" →
      provisionRetry t = .error "Only failed tasks can be retried.") := by
  constructor
  · intro h
    rw [provisionRetry]
    simp [h]
  · intro h
    have h2 : "failed" ≠ t.status := fun hcc => h hcc.symm
    rw [provisionRetry]
    simp [h2, h]

/-- A failed record carrying ledger, error, log and device reference. -/
def failedTask : ProvisionTask :=
  { sampleTask with
    status := "failed", currentStep := 2,
    steps := [{ step := 1, name := "ssh_connect", status := "success",
                message := "Connected", timestamp := 1 },
              { step := 2, name := "prerequisites", status := "failed",
                message := "No internet connection.", timestamp := 2 }],
    errorMessage := "No internet connection. Check network settings.",
    logOutput := "[Step 1] ...", player := some 7 }

theorem retry_resets_failed_record_witness :
    provisionRetry failedTask = .ok { failedTask with
      status := "pending", currentStep := 0, steps := [],
      errorMessage := "", logOutput := "", player := none } ∧
    provisionRetry sampleTask = .error "Only failed tasks can be retried." :=
  ⟨(retry_resets_failed_record failedTask).1 rfl,
   (retry_resets_failed_record sampleTask).2 (by decide)⟩

/-- Splits a char list on a separator character (no separator collapse),
used to parse dotted-quad addresses. -/
def splitOnChar (c : Char) : List Char → List (List Char)
  | [] => [[]]
  | x :: rest =>
    let r := splitOnChar c rest
    if x == c then [] :: r
    else
      match r with
      | [] => [[x]]
      | h :: rtl => (x :: h) :: rtl

/-- Numeric value of a nonempty all-digit char list. -/
def digitsValue? (l : List Char) : Option Nat :=
  if l.isEmpty then none
  else if l.all Char.isDigit then
    some (l.foldl (fun acc c => acc * 10 + (c.toNat - 48)) 0)
  else none

/-- Models `ipaddress.ip_address(value).is_loopback` as used by
`validate_ip_address` in `players/provision_serializers.py`: for a
dotted-quad IPv4 value the loopback block is `127.0.0.0/8`, and the
canonical IPv6 loopback literal is `::1`. The serializer's
`IPAddressField` has already guaranteed the value parses as an IP
address before this check runs. -/
def isLoopback (s : String) : Bool :=
  match splitOnChar '.' s.data with
  | [a, b, c, d] =>
    match digitsValue? a, digitsValue? b, digitsValue? c, digitsValue? d with
    | some va, some vb, some vc, some vd =>
      va ≤ 255 && vb ≤ 255 && vc ≤ 255 && vd ≤ 255 && va == 127
    | _, _, _, _ => false
  | _ => s == "::1"

/-- Request body of `provision_create`
(`ProvisionTaskCreateSerializer` fields, password omitted). -/
structure CreateInput where
  ipAddress : String
  sshUser : String
  sshPort : Nat
  playerName : String
deriving Repr, DecidableEq

/-- Effect of one `provision_create` call: the record store afterwards,
the ids of the provisioning jobs queued by `provision_player.delay`,
and the HTTP response (created task id, or the validation error). -/
structure CreateOutcome where
  store : List ProvisionTask
  queued : List Nat
  response : Except String Nat
deriving Repr

/-- `ProvisionTaskCreateSerializer.validate_ip_address` /
`.validate` plus `provision_create`
(`players/provision_serializers.py` lines 15-28,
`players/provision_views.py` lines 21-42): a loopback target or an
already-`running` task for the same address fails validation with
`raise_exception=True`, before any record is created or job queued;
otherwise the record is created and the Celery job queued. -/
def provisionCreate (store : List ProvisionTask) (inp : CreateInput) : CreateOutcome :=
  if isLoopback inp.ipAddress then
    { store := store, queued := [], response := .error "Cannot provision localhost." }
  else if store.any (fun t => t.ipAddress == inp.ipAddress && t.status == "running") then
    { store := store, queued := [],
      response := .error "A provisioning task is already running for this IP." }
  else
    let newId := store.length
    let t : ProvisionTask :=
      { id := newId, ipAddress := inp.ipAddress, sshUser := inp.sshUser,
        sshPort := inp.sshPort, playerName := inp.playerName, status := "pending",
        currentStep := 0, totalSteps := 12, steps := [], errorMessage := "",
        logOutput := "", player := none }
    { store := store ++ [t], queued := [newId], response := .ok newId }

/-- C10. A provisioning request whose target address is a loopback
address, or for whose target address a `running` provisioning record
already exists, is rejected with a validation error: the record store
is unchanged (no provisioning record created) and no job is queued. -/
theorem create_rejects_loopback_or_running (store : List ProvisionTask)
    (inp : CreateInput)
    (h : isLoopback inp.ipAddress = true ∨
      store.any (fun t => t.ipAddress == inp.ipAddress && t.status == "running") = true) :
    (provisionCreate store inp).store = store ∧
    (provisionCreate store inp).queued = [] ∧
    ∃ e, (provisionCreate store inp).response = .error e := by
  rcases h with h | h
  · rw [provisionCreate, if_pos h]
    exact ⟨rfl, rfl, _, rfl⟩
  · by_cases hl : isLoopback inp.ipAddress
    · rw [provisionCreate, if_pos hl]
      exact ⟨rfl, rfl, _, rfl⟩
    · rw [provisionCreate, if_neg hl, if_pos h]
      exact ⟨rfl, rfl, _, rfl⟩

/-- A store holding one `running` record for `10.0.0.9`. -/
def runningStore : List ProvisionTask :=
  [{ sampleTask with ipAddress := "10.0.0.9", status := "running" }]

/-- A request targeting the loopback address. -/
def loopbackInput : CreateInput :=
  { ipAddress := "127.0.0.1", sshUser := "pi", sshPort := 22, playerName := "" }

/-- A request targeting the address of the already-running record. -/
def duplicateInput : CreateInput :=
  { ipAddress := "10.0.0.9", sshUser := "pi", sshPort := 22, playerName := "" }

theorem create_rejects_loopback_or_running_witness :
    ((provisionCreate [] loopbackInput).store = [] ∧
      (provisionCreate [] loopbackInput).queued = [] ∧
      ∃ e, (provisionCreate [] loopbackInput).response = .error e) ∧
    ((provisionCreate runningStore duplicateInput).store = runningStore ∧
      (provisionCreate runningStore duplicateInput).queued = [] ∧
      ∃ e, (provisionCreate runningStore duplicateInput).response = .error e) :=
  ⟨create_rejects_loopback_or_running [] loopbackInput (Or.inl (by decide)),
   create_rejects_loopback_or_running runningStore duplicateInput
      (Or.inr (by decide))⟩

/-- The `Player` model of `players/models.py` (the fields the identity
resolver at `players/provision.py` lines 708-755 reads or writes). -/
structure PlayerRec where
  id : Nat
  name : String
  url : String
  isOnline : Bool
  lastSeen : Option Nat
  deviceType : String
  macAddress : String
  tailscaleIp : Option String
  tailscaleEnabled : Bool
deriving Repr, DecidableEq

/-- What the finished run hands to the identity resolver (lines
708-726): the target address, the requested name, the detected hardware
MAC, the detected device class, the mesh address when the Tailscale
join succeeded, and the current time. -/
structure ResolveInput where
  ipAddress : String
  taskPlayerName : String
  hostMac : String
  deviceType : String
  tailscaleIp : Option String
  now : Nat
deriving Repr, DecidableEq

/-- `player_name = task.player_name or f'Player {task.ip_address}'`. -/
def resolvedPlayerName (inp : ResolveInput) : String :=
  if inp.taskPlayerName = "" then "Player " ++ inp.ipAddress else inp.taskPlayerName

/-- `player_url = f'http://{task.ip_address}'`. -/
def playerUrlOf (inp : ResolveInput) : String := "http://" ++ inp.ipAddress

/-- The `url` entry of `player_defaults`: the mesh address is preferred
when the Tailscale join succeeded (lines 720-725). -/
def defaultsUrl (inp : ResolveInput) : String :=
  match inp.tailscaleIp with
  | some ts => "http://" ++ ts
  | none => playerUrlOf inp

/-- The in-place update of a matched player record (lines 736-748). -/
def applyPlayerUpdate (p : PlayerRec) (inp : ResolveInput) : PlayerRec :=
  let base := { p with
    name := resolvedPlayerName inp, url := defaultsUrl inp, isOnline := true,
    lastSeen := some inp.now, deviceType := inp.deviceType,
    macAddress := inp.hostMac }
  match inp.tailscaleIp with
  | some ts => { base with tailscaleIp := some ts, tailscaleEnabled := true }
  | none => base

/-- `Player.objects.create(**player_defaults)` (line 750). -/
def newPlayerRec (freshId : Nat) (inp : ResolveInput) : PlayerRec :=
  { id := freshId, name := resolvedPlayerName inp, url := defaultsUrl inp,
    isOnline := true, lastSeen := some inp.now, deviceType := inp.deviceType,
    macAddress := inp.hostMac, tailscaleIp := inp.tailscaleIp,
    tailscaleEnabled := inp.tailscaleIp.isSome }

/-- The device identity resolver (`players/provision.py` lines
729-751): match by hardware MAC first when one was detected, fall back
to a network-address match, fall back to creating a new record. Returns
the store afterwards, the id of the resolved record, and whether a new
record was created. -/
def resolvePlayer (store : List PlayerRec) (inp : ResolveInput) (freshId : Nat) :
    List PlayerRec × Nat × Bool :=
  let playerUrl := playerUrlOf inp
  let byMac :=
    if inp.hostMac = "" then none
    else store.find? (fun p => p.macAddress == inp.hostMac)
  let found :=
    match byMac with
    | some p => some p
    | none => store.find? (fun p => p.url == playerUrl)
  match found with
  | some p =>
    (store.map (fun q => if q.id = p.id then applyPlayerUpdate q inp else q), p.id, false)
  | none => (store ++ [newPlayerRec freshId inp], freshId, true)

lemma eq_of_mem_pairwise_ne_id {store : List PlayerRec} {p q : PlayerRec}
    (hids : store.Pairwise (fun a b => a.id ≠ b.id))
    (hp : p ∈ store) (hq : q ∈ store) (hid : q.id = p.id) : q = p := by
  induction store with
  | nil => cases hp
  | cons a rest ih =>
    rw [List.pairwise_cons] at hids
    obtain ⟨ha, hrest⟩ := hids
    rcases List.mem_cons.mp hp with hpa | hp2
    · rcases List.mem_cons.mp hq with hqa | hq2
      · rw [hqa, hpa]
      · subst hpa
        exact absurd hid.symm (ha q hq2)
    · rcases List.mem_cons.mp hq with hqa | hq2
      · subst hqa
        exact absurd hid (ha p hp2)
      · exact ih hrest hp2 hq2

/-- C1. On a successful run that detected a nonempty hardware MAC, if
the store already holds a record with that MAC, the resolver updates
exactly that record in place (name, address, online flag, last-seen,
device class, MAC and VPN fields via `applyPlayerUpdate`) and creates
no second record: the MAC match short-circuits the address-based
fallback regardless of what the record's previous address was, the
store keeps its length, and (under distinct record ids) the number of
records carrying that MAC is unchanged — the MAC still maps to at most
the one record it mapped to before. -/
theorem mac_match_updates_existing_player (store : List PlayerRec)
    (inp : ResolveInput) (freshId : Nat) (p : PlayerRec)
    (hmac : inp.hostMac ≠ "")
    (hfind : store.find? (fun q => q.macAddress == inp.hostMac) = some p)
    (hids : store.Pairwise (fun a b => a.id ≠ b.id)) :
    resolvePlayer store inp freshId =
      (store.map (fun q => if q.id = p.id then applyPlayerUpdate q inp else q),
        p.id, false) ∧
    (resolvePlayer store inp freshId).1.length = store.length ∧
    (resolvePlayer store inp freshId).2.2 = false ∧
    (resolvePlayer store inp freshId).1.countP
        (fun q => q.macAddress == inp.hostMac) =
      store.countP (fun q => q.macAddress == inp.hostMac) := by
  have hres : resolvePlayer store inp freshId =
      (store.map (fun q => if q.id = p.id then applyPlayerUpdate q inp else q),
        p.id, false) := by
    rw [resolvePlayer]
    simp only [if_neg hmac, hfind]
  have hp : p ∈ store := List.mem_of_find?_eq_some hfind
  have hpmac : p.macAddress = inp.hostMac := by
    simpa using List.find?_some hfind
  refine ⟨hres, ?_, ?_, ?_⟩
  · rw [hres]
    exact List.length_map _ _
  · rw [hres]
  · rw [hres]
    show (store.map _).countP _ = _
    rw [List.countP_map]
    refine List.countP_congr ?_
    intro q hq
    by_cases hqid : q.id = p.id
    · have hqp : q = p := eq_of_mem_pairwise_ne_id hids hp hq hqid
      subst hqp
      simp only [Function.comp_apply, if_pos hqid]
      have hupd : (applyPlayerUpdate q inp).macAddress = inp.hostMac := by
        rw [applyPlayerUpdate]
        cases inp.tailscaleIp <;> rfl
      simp [hupd, hpmac]
    · simp only [Function.comp_apply, if_neg hqid]

/-- A store with one record whose MAC matches the new run but whose
address differs from the newly provisioned one. -/
def macStore : List PlayerRec :=
  [{ id := 3, name := "Old player", url := "http://10.0.0.5",
     isOnline := false, lastSeen := some 1, deviceType := "pi4",
     macAddress := "b8:27:eb:aa:bb:cc", tailscaleIp := none,
     tailscaleEnabled := false }]

/-- A successful run reporting the same MAC from a new address. -/
def macInput : ResolveInput :=
  { ipAddress := "10.0.0.7", taskPlayerName := "", hostMac := "b8:27:eb:aa:bb:cc",
    deviceType := "pi4", tailscaleIp := none, now := 42 }

theorem mac_match_updates_existing_player_witness :
    resolvePlayer macStore macInput 9 =
      (macStore.map (fun q => if q.id = 3 then applyPlayerUpdate q macInput else q),
        3, false) ∧
    (resolvePlayer macStore macInput 9).1.length = macStore.length ∧
    (resolvePlayer macStore macInput 9).2.2 = false ∧
    (resolvePlayer macStore macInput 9).1.countP
        (fun q => q.macAddress == macInput.hostMac) =
      macStore.countP (fun q => q.macAddress == macInput.hostMac) := by
  have h := mac_match_updates_existing_player macStore macInput 9
    { id := 3, name := "Old player", url := "http://10.0.0.5",
      isOnline := false, lastSeen := some 1, deviceType := "pi4",
      macAddress := "b8:27:eb:aa:bb:cc", tailscaleIp := none,
      tailscaleEnabled := false }
    (by decide) (by decide) (by decide)
  exact h

/-- One entry of the `results` map of `BulkProvisionTask`
(`players/bulk_provision.py` lines 128, 147-158). -/
structure BulkResult where
  status : String
  playerId : Option Nat
  taskId : Option Nat
  error : String
deriving Repr, DecidableEq

/-- The `BulkProvisionTask` model of `players/models.py` (the fields
`bulk_provision_task` reads or writes); the `results` JSON object is an
association list keyed by target address. -/
structure BulkTask where
  status : String
  sshUser : String
  selectedIps : List String
  results : List (String × BulkResult)
deriving Repr, DecidableEq

/-- `results[ip] = r` on the per-target result map. -/
def setResult : List (String × BulkResult) → String → BulkResult → List (String × BulkResult)
  | [], ip, r => [(ip, r)]
  | (k, v) :: rest, ip, r =>
    if k = ip then (ip, r) :: rest else (k, v) :: setResult rest ip r

/-- The top-level names that `players/provision.py` defines or imports,
i.e. the names a `from .provision import NAME` statement can resolve.
`provision_player_sync` is not among them. -/
def provisionModuleNames : List String :=
  ["logging", "socket", "time", "uuid", "Template", "settings", "cache",
   "models", "timezone", "logger", "ProvisionTask", "_update_step",
   "_append_log", "_ssh_run", "_shell_quote", "_render_compose",
   "shared_task", "provision_player"]

/-- Python `from players.provision import name`: succeeds when the
module defines the name, raises `ImportError` otherwise. -/
def importFromProvision (name : String) : Except String Unit :=
  if provisionModuleNames.contains name then .ok ()
  else .error ("ImportError: cannot import name " ++ name ++ " from players.provision")

/-- What one synchronous `provision_player` run inside the bulk loop
produces for a target: either the refreshed provisioning record's
`(status, player id, task id, error_message)` or an exception caught by
the loop's `except` branch. -/
structure BulkEnv where
  runProvision : String → Except String (String × Option Nat × Nat × String)

/-- The pre-attempt per-target result (line 128). -/
def provisioningResult : BulkResult :=
  { status := "provisioning", playerId := none, taskId := none, error := "" }

/-- The terminal per-target result read back from the refreshed
provisioning record (lines 147-152). -/
def terminalResult (st : String) (pid : Option Nat) (tid : Nat) (errMsg : String) :
    BulkResult :=
  { status := st, playerId := pid, taskId := some tid, error := errMsg }

/-- The per-target result written by the loop's `except` branch
(lines 153-158). -/
def exceptionResult (e : String) : BulkResult :=
  { status := "failed", playerId := none, taskId := none, error := e }

/-- `bulk_provision_task` from `players/bulk_provision.py` lines
109-171. Its body begins with `from .provision import
provision_player_sync` (line 113); when that import fails the exception
propagates before any write, leaving the record untouched. Only on a
successful import does the body run: mark the record `provisioning`,
iterate the selected targets strictly in order writing a
`provisioning` per-target result before each attempt and the terminal
per-target result after it, then set the aggregate status — `completed`
when all targets succeeded, `completed` on partial success, `failed`
otherwise. -/
def bulkProvisionTask (env : BulkEnv) (t : BulkTask) : BulkTask × Option String :=
  match importFromProvision "provision_player_sync" with
  | .error e => (t, some e)
  | .ok _ =>
    let t1 : BulkTask := { t with status := "provisioning" }
    let t2 := t.selectedIps.foldl
      (fun acc ip =>
        let acc1 : BulkTask := { acc with results := setResult acc.results ip provisioningResult }
        match env.runProvision ip with
        | .ok (st, pid, tid, errMsg) =>
          { acc1 with results := setResult acc1.results ip (terminalResult st pid tid errMsg) }
        | .error e =>
          { acc1 with results := setResult acc1.results ip (exceptionResult e) })
      t1
    let statuses := t2.results.map (fun pr => pr.2.status)
    let overall :=
      if statuses.all (fun s => s == "success") then "completed"
      else if statuses.any (fun s => s == "success") then "completed"
      else "failed"
    ({ t2 with status := overall }, none)

/-- C2 (code bug). Every invocation of `bulk_provision_task` — for any
per-target outcomes and any task record, including one with a non-empty
selected target list — raises `ImportError` at its second statement,
because `players/provision.py` defines no `provision_player_sync`: the
record is returned untouched (no `provisioning` per-target result is
ever written, no terminal result, no aggregate status), contradicting
the claimed per-target and aggregate-status behaviour. -/
theorem bulk_provision_task_raises_import_error (env : BulkEnv) (t : BulkTask) :
    bulkProvisionTask env t =
      (t, some "ImportError: cannot import name provision_player_sync from players.provision") := by
  have himp : importFromProvision "provision_player_sync" =
      Except.error
        "ImportError: cannot import name provision_player_sync from players.provision" :=
    rfl
  rw [bulkProvisionTask, himp]
